import Mathlib

/-!
Verification of the pyhessio event-stream reader (src/pyhessio/__init__.py).

The Python module is a thin ctypes binding over the C library `pyhessioc`.
The Python accessor layer is embedded directly from the source; the C
library itself is not part of the source tree, so its functions are
modelled from the specification (spec.md) and from the behaviour the
Python docstrings record for them.  Machine doubles carry no arithmetic
in any claim considered here, so their payloads are modelled as `Int`.
-/

deriving instance DecidableEq for Except

namespace Pyhessio

/-- Result code from src/pyhessio/__init__.py line 17. -/
def TEL_INDEX_NOT_VALID : Int := -2

/-- The exception taxonomy of the Python layer (`HessioError` and its
subclasses, src lines 24-37) together with the built-in Python errors an
accessor call can surface (`AttributeError` for a never-assigned
attribute, `IndexError` for out-of-range numpy indexing by the caller). -/
inductive PyErr where
  | hessioError (msg : String)
  | generalError (msg : String)
  | telescopeIndexError (msg : String)
  | channelIndexError (msg : String)
  | attributeError
  | indexError
deriving DecidableEq

/-- Modelled from the spec: one configured telescope of the Run
Configuration Model (spec section 3), as read by the C library that is
not in the source tree.  The per-telescope tracking angles of the
current event (`azimuth_raw`, `altitude_raw`) are indexed by configured
telescope and are modelled alongside the configuration entry.  Doubles
are modelled as `Int` since no claim performs arithmetic on them. -/
structure TelConfig where
  telId : Int
  numPixels : Nat
  numGains : Nat
  mirrorArea : Int
  timeSlice : Int
  refStep : Int
  nrefshape : Int
  lrefshape : Int
  azimuthRaw : Int
  altitudeRaw : Int
deriving DecidableEq

/-- Modelled from the spec: the per-telescope raw data of the Current
Event (spec section 3) for one telescope that carried data: the declared
sample count, the raw ADC trace table (channel, pixel, time slice) and
the adc_known bit table (channel, pixel). -/
structure TelData where
  telId : Int
  numSamples : Nat
  adc : List (List (List Nat))
  adcKnownTbl : List (List Nat)
deriving DecidableEq

/-- Modelled from the spec: one decoded event record (the Current Event
after an advance): its event identifier, the central-trigger telescope
count and the per-telescope data blocks present in the record. -/
structure EventData where
  eventId : Int
  numTelTrig : Int
  teldata : List TelData
deriving DecidableEq

/-- Modelled from the spec: the C library global `hsdata`: run header
values, the immutable run configuration, the Current Event, and the
records the stream still holds for each of the two iteration modes
(triggered events, all simulated events). -/
structure HsData where
  runNumber : Int
  numTel : Int
  telescopes : List TelConfig
  current : EventData
  pendingEvents : List EventData
  pendingMcEvents : List EventData
deriving DecidableEq

/-- Modelled from the spec: the process-wide C library state: `none`
when no stream is open (before `file_open` or after `close_file`). -/
abbrev CState := Option HsData

/-- Modelled from the spec: telescope id to configuration entry lookup
(the id-to-index mapping of spec section 3). -/
def telAt (hs : HsData) (tid : Int) : Option TelConfig :=
  hs.telescopes.find? (fun t => t.telId == tid)

/-- Modelled from the spec: lookup of the current-event data block of a
telescope (present only for telescopes with data in this event). -/
def telDataAt (hs : HsData) (tid : Int) : Option TelData :=
  hs.current.teldata.find? (fun t => t.telId == tid)

/-- Modelled from the spec: C `get_run_number`; returns the run header
run number, or the negative sentinel -1 when no stream is open. -/
def c_get_run_number : CState → Int
  | none => -1
  | some hs => hs.runNumber

/-- Modelled from the spec: C `get_num_telescope`; the run header
telescope count, or -1 when no stream is open. -/
def c_get_num_telescope : CState → Int
  | none => -1
  | some hs => hs.numTel

/-- Modelled from the spec: C `get_num_tel_trig`; the central event
triggered-telescope count, or -1 when no stream is open. -/
def c_get_num_tel_trig : CState → Int
  | none => -1
  | some hs => hs.current.numTelTrig

/-- Modelled from the spec: C `get_num_pixels`; -1 with no stream,
TEL_INDEX_NOT_VALID for an unconfigured telescope id, else the
configured pixel count. -/
def c_get_num_pixels (c : CState) (tid : Int) : Int :=
  match c with
  | none => -1
  | some hs =>
    match telAt hs tid with
    | none => TEL_INDEX_NOT_VALID
    | some tc => tc.numPixels

/-- Modelled from the spec: C `get_num_channel`; -1 with no stream,
TEL_INDEX_NOT_VALID for an unconfigured telescope id, else the
configured gain-channel count. -/
def c_get_num_channel (c : CState) (tid : Int) : Int :=
  match c with
  | none => -1
  | some hs =>
    match telAt hs tid with
    | none => TEL_INDEX_NOT_VALID
    | some tc => tc.numGains

/-- Modelled from the spec: C `get_mirror_area`; writes the mirror area
into the caller buffer and returns a result code (0 success,
TEL_INDEX_NOT_VALID, or -1 with no stream). -/
def c_get_mirror_area (c : CState) (tid : Int) : Int × Int :=
  match c with
  | none => (-1, 0)
  | some hs =>
    match telAt hs tid with
    | none => (TEL_INDEX_NOT_VALID, 0)
    | some tc => (0, tc.mirrorArea)

/-- Modelled from the spec: C `get_event_num_samples`; -1 with no
stream or when the telescope carried no raw data in the current event,
TEL_INDEX_NOT_VALID for an unconfigured telescope id, else the declared
sample count (possibly 0). -/
def c_get_event_num_samples (c : CState) (tid : Int) : Int :=
  match c with
  | none => -1
  | some hs =>
    match telAt hs tid with
    | none => TEL_INDEX_NOT_VALID
    | some _ =>
      match telDataAt hs tid with
      | none => -1
      | some td => td.numSamples

/-- Modelled from the spec and the Python docstring: C
`get_azimuth_raw` returns the raw azimuth of the telescope, and 0 when
the telescope id is not valid or no stream is open. -/
def c_get_azimuth_raw (c : CState) (tid : Int) : Int :=
  match c with
  | none => 0
  | some hs =>
    match telAt hs tid with
    | none => 0
    | some tc => tc.azimuthRaw

/-- Modelled from the spec and the Python docstring: C
`get_altitude_raw`; 0 when the telescope id is not valid. -/
def c_get_altitude_raw (c : CState) (tid : Int) : Int :=
  match c with
  | none => 0
  | some hs =>
    match telAt hs tid with
    | none => 0
    | some tc => tc.altitudeRaw

/-- Modelled from the spec and the Python docstring: C `get_time_slice`
(width of one readout time slice); 0 when the telescope id is not
valid. -/
def c_get_time_slice (c : CState) (tid : Int) : Int :=
  match c with
  | none => 0
  | some hs =>
    match telAt hs tid with
    | none => 0
    | some tc => tc.timeSlice

/-- Modelled from the spec and the Python docstring: C `get_ref_step`;
0 when the telescope id is not valid. -/
def c_get_ref_step (c : CState) (tid : Int) : Int :=
  match c with
  | none => 0
  | some hs =>
    match telAt hs tid with
    | none => 0
    | some tc => tc.refStep

/-- Modelled from the spec and the Python docstring: C `get_nrefshape`
(number of reference pulse shapes, num_gains or 0); 0 when the
telescope id is not valid. -/
def c_get_nrefshape (c : CState) (tid : Int) : Int :=
  match c with
  | none => 0
  | some hs =>
    match telAt hs tid with
    | none => 0
    | some tc => tc.nrefshape

/-- Modelled from the spec and the Python docstring: C `get_lrefshape`
(length of the reference pulse shapes); 0 when the telescope id is not
valid. -/
def c_get_lrefshape (c : CState) (tid : Int) : Int :=
  match c with
  | none => 0
  | some hs =>
    match telAt hs tid with
    | none => 0
    | some tc => tc.lrefshape

/-- Modelled from the spec: C `get_adc_known`; the recorded bit mask
for a channel and pixel, and 0 whenever the stream is closed, the
telescope id is invalid, the telescope carried no raw data, or the
channel or pixel index is out of range. -/
def c_get_adc_known (c : CState) (tid chan pix : Int) : Int :=
  match c with
  | none => 0
  | some hs =>
    match telAt hs tid with
    | none => 0
    | some _ =>
      match telDataAt hs tid with
      | none => 0
      | some td => ((((td.adcKnownTbl.get? chan.toNat).getD []).get? pix.toNat).getD 0 : Nat)

/-- Modelled from the spec: writing one row of raw samples into a
caller buffer row: stored values overwrite the buffer cell by cell, the
buffer keeps its own length (cells with no stored value keep their
zero). -/
def overlayRow : List Nat → List Nat → List Nat
  | _, [] => []
  | [], b :: bs => b :: overlayRow [] bs
  | v :: vs, _ :: bs => v :: overlayRow vs bs

/-- Modelled from the spec: writing a pixel-by-sample table of raw
samples into a caller buffer of the same nesting; the buffer dictates
the shape. -/
def overlayMat : List (List Nat) → List (List Nat) → List (List Nat)
  | _, [] => []
  | [], b :: bs => b :: overlayMat [] bs
  | v :: vs, b :: bs => overlayRow v b :: overlayMat vs bs

/-- Modelled from the spec: C `get_adc_sample`; fills the caller buffer
for one gain channel with the raw trace of the telescope and returns a
result code (0 success, TEL_INDEX_NOT_VALID, -1 when no stream is open
or the telescope carried no raw data in the current event). -/
def c_get_adc_sample (c : CState) (tid : Int) (chan : Nat)
    (buf : List (List Nat)) : Int × List (List Nat) :=
  match c with
  | none => (-1, buf)
  | some hs =>
    match telAt hs tid with
    | none => (TEL_INDEX_NOT_VALID, buf)
    | some _ =>
      match telDataAt hs tid with
      | none => (-1, buf)
      | some td => (0, overlayMat ((td.adc.get? chan).getD []) buf)

/-- Modelled from the spec: C `file_open`; -2 when a stream is already
open (exactly one stream system-wide), -1 when the named file cannot be
opened, else installs the decoded stream state.  The `world` argument
stands for the file system. -/
def c_file_open (c : CState) (world : String → Option HsData)
    (filename : String) : CState × Int :=
  match c with
  | some hs => (some hs, -2)
  | none =>
    match world filename with
    | none => (none, -1)
    | some hs => (some hs, 0)

/-- Modelled from the spec: C `close_file` releases the stream and
frees `hsdata`; the run configuration and current event are gone. -/
def c_close_file (_ : CState) : CState := none

/-- Modelled from the spec: C `move_to_next_event` (triggered-event
mode advance).  At end of stream it returns -1 and leaves the state,
and with it the run configuration, unchanged; otherwise it decodes the
next record into the current event and returns the run number, writing
the event id into the caller buffer.  The result is (new state, return
code, event id written). -/
def c_move_to_next_event : CState → CState × Int × Int
  | none => (none, -1, -1)
  | some hs =>
    match hs.pendingEvents with
    | [] => (some hs, -1, -1)
    | e :: rest =>
      (some { hs with current := e, pendingEvents := rest }, hs.runNumber, e.eventId)

/-- Modelled from the spec: C `move_to_next_mc_event` (all-simulated
mode advance), same contract as triggered-mode advance but over every
simulated shower record. -/
def c_move_to_next_mc_event : CState → CState × Int × Int
  | none => (none, -1, -1)
  | some hs =>
    match hs.pendingMcEvents with
    | [] => (some hs, -1, -1)
    | e :: rest =>
      (some { hs with current := e, pendingMcEvents := rest }, hs.runNumber, e.eventId)

/-- The Python-side state of a `HessioFile` instance: the (shared,
process-wide) C library state, the private `__opened_filename`
attribute, and the `_event_id` attribute slot, which no operation of
the class ever assigns (`none` = attribute absent). -/
structure PyState where
  cState : CState
  openedFilename : Option String
  eventId : Option Int
deriving DecidableEq

/-- Python truthiness of the `__opened_filename` attribute: `not x` is
true for `None` and for the empty string. -/
def isFalsy : Option String → Bool
  | none => true
  | some s => s.isEmpty

/-- HessioFile.get_run_number, src lines 445-458. -/
def get_run_number (s : PyState) : Except PyErr Int :=
  let run := c_get_run_number s.cState
  if run > 0 then .ok run
  else .error (.generalError "run number not available")

/-- HessioFile.get_num_telescope, src lines 460-474. -/
def get_num_telescope (s : PyState) : Except PyErr Int :=
  let number := c_get_num_telescope s.cState
  if number > 0 then .ok number
  else .error (.generalError "number of telescopes in current run not available")

/-- HessioFile.get_num_tel_trig, src lines 476-488. -/
def get_num_tel_trig (s : PyState) : Except PyErr Int :=
  let number := c_get_num_tel_trig s.cState
  if number > 0 then .ok number
  else .error (.generalError "number of triggered telescopes in central event not available")

/-- HessioFile.get_num_pixels, src lines 629-653. -/
def get_num_pixels (s : PyState) (telescope_id : Int) : Except PyErr Int :=
  let result := c_get_num_pixels s.cState telescope_id
  if result ≥ 0 then .ok result
  else if result = TEL_INDEX_NOT_VALID then
    .error (.telescopeIndexError ("no telescope with id " ++ toString telescope_id))
  else .error (.generalError "hsdata->camera_set[itel].num_pixels not available")

/-- HessioFile.get_num_channel, src lines 602-627. -/
def get_num_channel (s : PyState) (telescope_id : Int) : Except PyErr Int :=
  let result := c_get_num_channel s.cState telescope_id
  if result ≥ 0 then .ok result
  else if result = TEL_INDEX_NOT_VALID then
    .error (.telescopeIndexError ("no telescope with id " ++ toString telescope_id))
  else .error (.generalError " hsdata->event.teldata[itel].raw not available")

/-- HessioFile.get_mirror_area, src lines 490-515. -/
def get_mirror_area (s : PyState) (telescope_id : Int) : Except PyErr Int :=
  let rd := c_get_mirror_area s.cState telescope_id
  if rd.1 = 0 then .ok rd.2
  else if rd.1 = TEL_INDEX_NOT_VALID then
    .error (.telescopeIndexError ("no telescope with id " ++ toString telescope_id))
  else .error (.generalError "hsdata->camera_set[itel].mirror_area not available")

/-- HessioFile.get_event_num_samples, src lines 823-846. -/
def get_event_num_samples (s : PyState) (telescope_id : Int) : Except PyErr Int :=
  let result := c_get_event_num_samples s.cState telescope_id
  if result ≥ 0 then .ok result
  else if result = TEL_INDEX_NOT_VALID then
    .error (.telescopeIndexError ("no telescope with id " ++ toString telescope_id))
  else .error (.generalError "ata->event.teldata[itel].raw->num->samples not available")

/-- HessioFile.get_azimuth_raw, src lines 1212-1222: returns the C
value directly, never raises. -/
def get_azimuth_raw (s : PyState) (telescope_id : Int) : Except PyErr Int :=
  .ok (c_get_azimuth_raw s.cState telescope_id)

/-- HessioFile.get_altitude_raw, src lines 1225-1235. -/
def get_altitude_raw (s : PyState) (telescope_id : Int) : Except PyErr Int :=
  .ok (c_get_altitude_raw s.cState telescope_id)

/-- HessioFile.get_time_slice, src lines 1719-1729. -/
def get_time_slice (s : PyState) (telescope_id : Int) : Except PyErr Int :=
  .ok (c_get_time_slice s.cState telescope_id)

/-- HessioFile.get_ref_step, src lines 1706-1717. -/
def get_ref_step (s : PyState) (telescope_id : Int) : Except PyErr Int :=
  .ok (c_get_ref_step s.cState telescope_id)

/-- HessioFile.get_nrefshape, src lines 1682-1690. -/
def get_nrefshape (s : PyState) (telescope_id : Int) : Except PyErr Int :=
  .ok (c_get_nrefshape s.cState telescope_id)

/-- HessioFile.get_lrefshape, src lines 1692-1703. -/
def get_lrefshape (s : PyState) (telescope_id : Int) : Except PyErr Int :=
  .ok (c_get_lrefshape s.cState telescope_id)

/-- HessioFile.get_adc_known, src lines 1623-1636: returns the C value
directly, never raises. -/
def get_adc_known (s : PyState) (telescope_id channel pixel_id : Int) : Except PyErr Int :=
  .ok (c_get_adc_known s.cState telescope_id channel pixel_id)

/-- The channel loop of HessioFile.get_adc_sample (src lines 926-939):
for each channel the C routine fills `data[chan]`; a nonzero result
code aborts with the matching exception. -/
def adcFill (c : CState) (tid : Int) (buf : List (List Nat)) :
    List Nat → Except PyErr (List (List (List Nat)))
  | [] => .ok []
  | chan :: rest =>
    let rd := c_get_adc_sample c tid chan buf
    if rd.1 = 0 then
      match adcFill c tid buf rest with
      | .ok tl => .ok (rd.2 :: tl)
      | .error e => .error e
    else if rd.1 = TEL_INDEX_NOT_VALID then
      .error (.telescopeIndexError ("no telescope with id " ++ toString tid))
    else
      .error (.generalError ("adc sample not available for telescope " ++ toString tid
        ++ " and channel " ++ toString chan))

/-- HessioFile.get_adc_sample, src lines 904-946: reads the channel,
pixel and sample counts, returns the zero-length `np.zeros(0)` when no
samples were recorded, else allocates a (channel, pixel, sample) zero
table and lets the C library fill each channel; exceptions from the
loop are re-raised with a per-telescope message. -/
def get_adc_sample (s : PyState) (telescope_id : Int) :
    Except PyErr (List (List (List Nat))) :=
  match get_num_channel s telescope_id with
  | .error e => .error e
  | .ok n_chan =>
  match get_num_pixels s telescope_id with
  | .error e => .error e
  | .ok n_pix =>
  match get_event_num_samples s telescope_id with
  | .error e => .error e
  | .ok n_samples =>
  if ¬ n_samples > 0 then .ok []
  else
    let buf := List.replicate n_pix.toNat (List.replicate n_samples.toNat 0)
    match adcFill s.cState telescope_id buf (List.range n_chan.toNat) with
    | .ok data => .ok data
    | .error (.telescopeIndexError _) =>
      .error (.telescopeIndexError ("no telescope with id " ++ toString telescope_id))
    | .error (.generalError _) =>
      .error (.generalError ("adc sample not available for telescope " ++ toString telescope_id))
    | .error e => .error e

/-- A caller-side channel request `f.get_adc_sample(tel)[chan]` as in
the repository tests: numpy indexing past the channel axis length is an
ordinary IndexError. -/
def get_adc_sample_channel (s : PyState) (telescope_id : Int) (chan : Nat) :
    Except PyErr (List (List Nat)) :=
  match get_adc_sample s telescope_id with
  | .error e => .error e
  | .ok d =>
    match d.get? chan with
    | some m => .ok m
    | none => .error .indexError

/-- Whether an exception value is the channel-index exception. -/
def isChanErr : PyErr → Bool
  | .channelIndexError _ => true
  | _ => false

/-- Whether an accessor outcome is the channel-index exception. -/
def isChannelIndexError {α : Type} : Except PyErr α → Bool
  | .error e => isChanErr e
  | .ok _ => false

/-- HessioFile.get_event_id, src lines 413-419: reads the `_event_id`
attribute; if it was never assigned Python raises AttributeError. -/
def get_event_id (s : PyState) : Except PyErr Int :=
  match s.eventId with
  | none => .error .attributeError
  | some v => .ok v

/-- HessioFile.fill_next_event, src lines 294-309: one advance; raises
HessioError when the C advance reports -1 (also used at end of
stream). -/
def fill_next_event (s : PyState) : Except PyErr Int × PyState :=
  match c_move_to_next_event s.cState with
  | (c2, run_id, event_number) =>
    let s2 := { s with cState := c2 }
    if run_id = -1 ∨ event_number = -1 then
      (.error (.hessioError "Error while reading next event"), s2)
    else (.ok event_number, s2)

/-- The length of the triggered-event stream still pending (recursion
measure for the generator loops). -/
def pendingLen : CState → Nat
  | none => 0
  | some hs => hs.pendingEvents.length

/-- The length of the simulated-event stream still pending. -/
def pendingMcLen : CState → Nat
  | none => 0
  | some hs => hs.pendingMcEvents.length

/-- The while loop of HessioFile.move_to_next_event (src lines
330-339): while the previous return code is nonnegative and the event
count is under the limit (limit 0 = unlimited), advance; yield the
written event id unless the return code is -1.  Returns the yielded
event ids and the final C state. -/
def moveLoop (limit : Int) (evt_num : Nat) (c : CState) : List Int × CState :=
  if limit = 0 ∨ (evt_num : Int) < limit then
    let t := c_move_to_next_event c
    if t.2.1 = -1 then ([], t.1)
    else if hlt : t.2.1 < 0 then ([t.2.2], t.1)
    else
      let r := moveLoop limit (evt_num + 1) t.1
      (t.2.2 :: r.1, r.2)
  else ([], c)
termination_by pendingLen c
decreasing_by
  rcases c with _ | hs
  · rename_i hne
    exact absurd rfl hne
  · rcases hpe : hs.pendingEvents with _ | ⟨e, rest⟩
    · rename_i hne
      exact absurd (show (c_move_to_next_event (some hs)).2.1 = -1 by
        simp [c_move_to_next_event, hpe]) hne
    · simp [c_move_to_next_event, hpe, pendingLen]

/-- The while loop of HessioFile.move_to_next_mc_event (src lines
377-386), identical in structure to the triggered-mode loop. -/
def moveMcLoop (limit : Int) (evt_num : Nat) (c : CState) : List Int × CState :=
  if limit = 0 ∨ (evt_num : Int) < limit then
    let t := c_move_to_next_mc_event c
    if t.2.1 = -1 then ([], t.1)
    else if hlt : t.2.1 < 0 then ([t.2.2], t.1)
    else
      let r := moveMcLoop limit (evt_num + 1) t.1
      (t.2.2 :: r.1, r.2)
  else ([], c)
termination_by pendingMcLen c
decreasing_by
  rcases c with _ | hs
  · rename_i hne
    exact absurd rfl hne
  · rcases hpe : hs.pendingMcEvents with _ | ⟨e, rest⟩
    · rename_i hne
      exact absurd (show (c_move_to_next_mc_event (some hs)).2.1 = -1 by
        simp [c_move_to_next_mc_event, hpe]) hne
    · simp [c_move_to_next_mc_event, hpe, pendingMcLen]

/-- HessioFile.move_to_next_event, src lines 311-339: raises when no
input file is open, else runs the generator to exhaustion, producing
the yielded event ids and the final C state. -/
def move_to_next_event (s : PyState) (limit : Int) :
    Except PyErr (List Int × CState) :=
  if isFalsy s.openedFilename then .error (.hessioError "input file is not open")
  else .ok (moveLoop limit 0 s.cState)

/-- HessioFile.move_to_next_mc_event, src lines 358-386. -/
def move_to_next_mc_event (s : PyState) (limit : Int) :
    Except PyErr (List Int × CState) :=
  if isFalsy s.openedFilename then .error (.hessioError "input file is not open")
  else .ok (moveMcLoop limit 0 s.cState)

/-- HessioFile.open_file, src lines 388-404: records the filename, asks
the C library to open the stream, raises on failure (-1 cannot open, -2
a stream is already open). -/
def open_file (s : PyState) (filename : String)
    (world : String → Option HsData) : Except PyErr Unit × PyState :=
  let s1 := { s with openedFilename := some filename }
  let co := c_file_open s.cState world filename
  let s2 := { s1 with cState := co.1 }
  if co.2 = -1 then
    (.error (.hessioError ("could not open file " ++ filename)), s2)
  else if co.2 = -2 then
    (.error (.hessioError "a file is already open. Use pyhessio.close_file()"), s2)
  else (.ok (), s2)

/-- HessioFile.close_file, src lines 406-411: closes the C stream and
clears the private filename attribute. -/
def closeFileOp (s : PyState) : PyState :=
  { s with cState := c_close_file s.cState, openedFilename := none }

/-- HessioFile.__init__, src lines 77-91: raises HessioError unless
entered through the context manager; otherwise initialises the
attributes (never `_event_id`) and opens the file when one is given.
Returns the constructed state (or the raised error) together with the
resulting C library state. -/
def hessioFileInit (world : String → Option HsData) (c : CState)
    (filename : Option String) (enter_by_context_mng : Bool) :
    Except PyErr PyState × CState :=
  if ¬ enter_by_context_mng then
    (.error (.hessioError
      "HessioFile can be only use with context manager thanks to pyhessio.open function"), c)
  else
    let s0 : PyState := { cState := c, openedFilename := none, eventId := none }
    match filename with
    | none => (.ok s0, c)
    | some fn =>
      let r := open_file s0 fn world
      match r.1 with
      | .error e => (.error e, r.2.cState)
      | .ok _ => (.ok r.2, r.2.cState)

/-- open_hessio, src lines 40-58: builds the HessioFile with the
context-manager flag set; when construction succeeds the body runs and
`close_file` is always called afterwards, whether or not the body
raised.  Returns the body outcome and the final C library state. -/
def open_hessio {α : Type} (world : String → Option HsData) (c : CState)
    (filename : String) (body : PyState → Except PyErr α × PyState) :
    Except PyErr α × CState :=
  match hessioFileInit world c (some filename) true with
  | (.error e, c2) => (.error e, c2)
  | (.ok s, _) =>
    let r := body s
    let s3 := closeFileOp r.2
    (r.1, s3.cState)

/-- The states a HessioFile instance can be in: constructed by
`__init__` (the only constructor) and transformed by the state-mutating
operations of the class.  The accessors are pure reads. -/
inductive Reachable : PyState → Prop where
  | init (world : String → Option HsData) (c : CState) (fn : Option String)
      (flag : Bool) (s : PyState) :
      (hessioFileInit world c fn flag).1 = .ok s → Reachable s
  | openf (s : PyState) (fn : String) (world : String → Option HsData) :
      Reachable s → Reachable (open_file s fn world).2
  | closef (s : PyState) : Reachable s → Reachable (closeFileOp s)
  | fill (s : PyState) : Reachable s → Reachable (fill_next_event s).2
  | movegen (s : PyState) (limit : Int) (l : List Int) (cf : CState) :
      Reachable s → move_to_next_event s limit = .ok (l, cf) →
      Reachable { s with cState := cf }
  | movegenMc (s : PyState) (limit : Int) (l : List Int) (cf : CState) :
      Reachable s → move_to_next_mc_event s limit = .ok (l, cf) →
      Reachable { s with cState := cf }

/-- A configured telescope used by the concrete test states (id 47,
like the fixture telescope of the repository test suite). -/
def tc47 : TelConfig := ⟨47, 3, 1, 14, 3, 1, 1, 80, 12, 9⟩

/-- Current-event raw data of telescope 47: one gain channel, three
pixels, two samples each. -/
def td47 : TelData := ⟨47, 2, [[[5, 6], [7, 8], [9, 10]]], [[3, 3, 3]]⟩

/-- A decoded event record with data from telescope 47. -/
def ev408 : EventData := ⟨408, 2, [td47]⟩

/-- A decoded event record with no telescope data. -/
def ev409 : EventData := ⟨409, 1, []⟩

/-- A concrete open-stream C state: run 31964, 126 telescopes declared,
telescope 47 configured, two triggered events and one simulated event
pending. -/
def hsA : HsData := ⟨31964, 126, [tc47], ev408, [ev408, ev409], [ev409]⟩

/-- A concrete open HessioFile state over `hsA`. -/
def stA : PyState := ⟨some hsA, some "gamma_test.simtel.gz", none⟩

/-- A C state whose run header counts are all zero (legitimately-zero
counts, not the negative sentinel). -/
def hsZ : HsData := ⟨0, 0, [tc47], ⟨0, 0, []⟩, [], []⟩

/-- The HessioFile state over `hsZ`. -/
def stZ : PyState := ⟨some hsZ, some "zero.simtel.gz", none⟩

/-- A C state that has reached end of stream: no pending events. -/
def hsE : HsData := ⟨31964, 126, [tc47], ev409, [], []⟩

/-- The HessioFile state over `hsE`. -/
def stE : PyState := ⟨some hsE, some "gamma_test.simtel.gz", none⟩

/-- Current-event data of telescope 47 declaring zero samples. -/
def td47zero : TelData := ⟨47, 0, [], [[3, 3, 3]]⟩

/-- A C state in which telescope 47 has data but zero samples. -/
def hsS : HsData := ⟨31964, 126, [tc47], ⟨500, 1, [td47zero]⟩, [], []⟩

/-- The HessioFile state over `hsS`. -/
def stS : PyState := ⟨some hsS, some "gamma_test.simtel.gz", none⟩

/-- The freshly constructed HessioFile state (no filename given). -/
def st0 : PyState := ⟨none, none, none⟩

/-- The state produced by opening the fixture file of `worldEx`. -/
def sOpened : PyState := ⟨some hsA, some "gamma_test.simtel.gz", none⟩

/-- A one-file file system mapping the fixture name to `hsA`. -/
def worldEx : String → Option HsData :=
  fun n => if n = "gamma_test.simtel.gz" then some hsA else none

/-! Helper lemmas shared by the claim theorems. -/

theorem open_file_snd (s : PyState) (fn : String) (world : String → Option HsData) :
    (open_file s fn world).2 =
      { s with openedFilename := some fn, cState := (c_file_open s.cState world fn).1 } := by
  unfold open_file
  dsimp only
  split
  · rfl
  · split <;> rfl

theorem fill_next_event_snd (s : PyState) :
    (fill_next_event s).2 = { s with cState := (c_move_to_next_event s.cState).1 } := by
  unfold fill_next_event
  rcases h : c_move_to_next_event s.cState with ⟨c2, run_id, evnum⟩
  dsimp only
  split <;> rfl

theorem hessioFileInit_ok_eventId (world : String → Option HsData) (c : CState)
    (fn : Option String) (flag : Bool) (s : PyState)
    (h : (hessioFileInit world c fn flag).1 = .ok s) : s.eventId = none := by
  unfold hessioFileInit at h
  split at h
  · simp at h
  · rcases fn with _ | fn
    · simp only [Except.ok.injEq] at h
      subst h
      rfl
    · simp only at h
      split at h
      · simp at h
      · simp only [Except.ok.injEq] at h
        subst h
        rw [open_file_snd]

theorem reachable_eventId_none {s : PyState} (h : Reachable s) : s.eventId = none := by
  induction h with
  | init w c fn flag s1 hok => exact hessioFileInit_ok_eventId w c fn flag s1 hok
  | openf s1 fn w _ ih => rw [open_file_snd]; exact ih
  | closef s1 _ ih => exact ih
  | fill s1 _ ih => rw [fill_next_event_snd]; exact ih
  | movegen s1 limit l cf _ _ ih => exact ih
  | movegenMc s1 limit l cf _ _ ih => exact ih

/-! Claim theorems. -/

/-- C9: on every state a HessioFile instance can reach through the
operations of the class, get_event_id raises AttributeError, because no
operation ever assigns the `_event_id` attribute it reads. -/
theorem get_event_id_always_attribute_error (s : PyState) (h : Reachable s) :
    get_event_id s = .error PyErr.attributeError := by
  unfold get_event_id
  rw [reachable_eventId_none h]

/-- C9 witness: the freshly constructed instance raises AttributeError
from get_event_id. -/
theorem get_event_id_always_attribute_error_witness :
    get_event_id st0 = .error PyErr.attributeError :=
  get_event_id_always_attribute_error st0
    (Reachable.init (fun _ => none) none none true st0 rfl)

/-- C10: constructing HessioFile with the default
enter_by_context_mng=False raises HessioError whatever the filename;
and when open_hessio successfully constructs the instance, the body
result (raised or returned) is propagated and close_file always runs,
leaving the C library stream closed. -/
theorem context_manager_required_and_closes {α : Type}
    (world : String → Option HsData) (c : CState) (filename : String)
    (body : PyState → Except PyErr α × PyState) (s : PyState)
    (h : (hessioFileInit world c (some filename) true).1 = .ok s) :
    (∀ (w2 : String → Option HsData) (c2 : CState) (fn2 : Option String),
      (hessioFileInit w2 c2 fn2 false).1 = .error (.hessioError
        "HessioFile can be only use with context manager thanks to pyhessio.open function"))
    ∧ (open_hessio world c filename body).1 = (body s).1
    ∧ (open_hessio world c filename body).2 = none := by
  refine ⟨fun w2 c2 fn2 => rfl, ?_, ?_⟩ <;>
  · unfold open_hessio
    rcases hh : hessioFileInit world c (some filename) true with ⟨r1, cr⟩
    rw [hh] at h
    simp only at h
    subst h
    rfl

/-- C10 witness: at the concrete fixture world, construction through
the context manager succeeds, the body result is returned and the final
C state is closed. -/
theorem context_manager_required_and_closes_witness :
    (open_hessio worldEx none "gamma_test.simtel.gz"
      (fun s => (.ok (0 : Int), s))).2 = none :=
  (context_manager_required_and_closes worldEx none "gamma_test.simtel.gz"
    (fun s => (.ok (0 : Int), s)) sOpened (by decide)).2.2

/-- C4 counterexample: with the underlying run number, telescope count
and trigger count all equal to the legitimately-zero count 0, the three
accessors raise HessioGeneralError instead of returning 0, so a
non-negative underlying count is not always returned as a value. -/
theorem zero_counts_raise_counterexample :
    c_get_run_number stZ.cState = 0
    ∧ get_run_number stZ = .error (.generalError "run number not available")
    ∧ c_get_num_telescope stZ.cState = 0
    ∧ get_num_telescope stZ =
        .error (.generalError "number of telescopes in current run not available")
    ∧ c_get_num_tel_trig stZ.cState = 0
    ∧ get_num_tel_trig stZ =
        .error (.generalError "number of triggered telescopes in central event not available") := by
  decide

/-- C4 amended: get_run_number, get_num_telescope and get_num_tel_trig
return the underlying count only when it is strictly positive; zero, as
well as every negative value, triggers the not-available
HessioGeneralError. -/
theorem counts_strictly_positive_only (s : PyState) (hs : HsData)
    (hc : s.cState = some hs) :
    (0 < hs.runNumber → get_run_number s = .ok hs.runNumber)
    ∧ (hs.runNumber ≤ 0 →
        get_run_number s = .error (.generalError "run number not available"))
    ∧ (0 < hs.numTel → get_num_telescope s = .ok hs.numTel)
    ∧ (hs.numTel ≤ 0 → get_num_telescope s =
        .error (.generalError "number of telescopes in current run not available"))
    ∧ (0 < hs.current.numTelTrig → get_num_tel_trig s = .ok hs.current.numTelTrig)
    ∧ (hs.current.numTelTrig ≤ 0 → get_num_tel_trig s =
        .error (.generalError "number of triggered telescopes in central event not available")) := by
  refine ⟨fun h => ?_, fun h => ?_, fun h => ?_, fun h => ?_, fun h => ?_, fun h => ?_⟩ <;>
    simp only [get_run_number, get_num_telescope, get_num_tel_trig,
      c_get_run_number, c_get_num_telescope, c_get_num_tel_trig, hc]
  · rw [if_pos h]
  · rw [if_neg (by omega)]
  · rw [if_pos h]
  · rw [if_neg (by omega)]
  · rw [if_pos h]
  · rw [if_neg (by omega)]

/-- C4 amended witness: at the concrete state `stA` the strictly
positive run number 31964 is returned. -/
theorem counts_strictly_positive_only_witness :
    get_run_number stA = .ok 31964 :=
  (counts_strictly_positive_only stA hsA rfl).1 (by decide)

/-- C1 counterexample: telescope id 99 is not configured in `hsA`, yet
get_azimuth_raw returns the plausible value 0 instead of raising
HessioTelescopeIndexError. -/
theorem invalid_tel_accessor_returns_zero :
    telAt hsA 99 = none ∧ get_azimuth_raw stA 99 = .ok 0 := by
  decide

/-- C1 amended: for a telescope id absent from the run configuration,
the accessors that check the C result code (get_mirror_area,
get_num_pixels, get_num_channel, get_event_num_samples) raise
HessioTelescopeIndexError, while the raw pass-through accessors
(get_azimuth_raw, get_altitude_raw, get_time_slice, get_ref_step,
get_nrefshape, get_lrefshape, get_adc_known) return 0 as their
docstrings state instead of raising. -/
theorem invalid_tel_split_error_behavior (s : PyState) (hs : HsData) (tid : Int)
    (hc : s.cState = some hs) (hno : telAt hs tid = none) :
    get_mirror_area s tid =
      .error (.telescopeIndexError ("no telescope with id " ++ toString tid))
    ∧ get_num_pixels s tid =
      .error (.telescopeIndexError ("no telescope with id " ++ toString tid))
    ∧ get_num_channel s tid =
      .error (.telescopeIndexError ("no telescope with id " ++ toString tid))
    ∧ get_event_num_samples s tid =
      .error (.telescopeIndexError ("no telescope with id " ++ toString tid))
    ∧ get_azimuth_raw s tid = .ok 0
    ∧ get_altitude_raw s tid = .ok 0
    ∧ get_time_slice s tid = .ok 0
    ∧ get_ref_step s tid = .ok 0
    ∧ get_nrefshape s tid = .ok 0
    ∧ get_lrefshape s tid = .ok 0
    ∧ get_adc_known s tid 0 0 = .ok 0 := by
  refine ⟨?_, ?_, ?_, ?_, ?_, ?_, ?_, ?_, ?_, ?_, ?_⟩ <;>
    simp [get_mirror_area, c_get_mirror_area, get_num_pixels, c_get_num_pixels,
      get_num_channel, c_get_num_channel, get_event_num_samples,
      c_get_event_num_samples, get_azimuth_raw, c_get_azimuth_raw,
      get_altitude_raw, c_get_altitude_raw, get_time_slice, c_get_time_slice,
      get_ref_step, c_get_ref_step, get_nrefshape, c_get_nrefshape,
      get_lrefshape, c_get_lrefshape, get_adc_known, c_get_adc_known,
      hc, hno, TEL_INDEX_NOT_VALID]

/-- C1 amended witness: concrete behaviour at the unconfigured
telescope id 99 of state `stA`. -/
theorem invalid_tel_split_error_behavior_witness :
    get_mirror_area stA 99 =
      .error (.telescopeIndexError ("no telescope with id " ++ toString (99 : Int)))
    ∧ get_azimuth_raw stA 99 = .ok 0
    ∧ get_adc_known stA 99 0 0 = .ok 0 := by
  have h := invalid_tel_split_error_behavior stA hsA 99 rfl (by decide)
  exact ⟨h.1, h.2.2.2.2.1, h.2.2.2.2.2.2.2.2.2.2⟩

/-- C3 counterexample: after close_file on the open state `stA`, the
pass-through accessor get_azimuth_raw does not fail at all (it returns
0), and get_run_number fails with the generic HessioGeneralError, not
with the no-stream-open HessioError the generators raise. -/
theorem close_then_accessor_counterexample :
    get_azimuth_raw (closeFileOp stA) 47 = .ok 0
    ∧ get_run_number (closeFileOp stA) = .error (.generalError "run number not available")
    ∧ get_run_number (closeFileOp stA) ≠ .error (.hessioError "input file is not open") := by
  decide

/-- C3 amended: after close_file the C state is freed, so
get_run_number, get_num_telescope and get_adc_sample all raise
HessioGeneralError (their not-available errors) rather than returning
data from the previously decoded run, the generators raise HessioError
because the input file is not open, and fill_next_event raises
HessioError; only raw pass-through accessors such as get_azimuth_raw
still return 0 without failing. -/
theorem close_invalidates_accessors (s : PyState) (tid : Int) (limit : Int) :
    get_run_number (closeFileOp s) = .error (.generalError "run number not available")
    ∧ get_num_telescope (closeFileOp s) =
        .error (.generalError "number of telescopes in current run not available")
    ∧ get_adc_sample (closeFileOp s) tid =
        .error (.generalError " hsdata->event.teldata[itel].raw not available")
    ∧ move_to_next_event (closeFileOp s) limit =
        .error (.hessioError "input file is not open")
    ∧ (fill_next_event (closeFileOp s)).1 =
        .error (.hessioError "Error while reading next event")
    ∧ get_azimuth_raw (closeFileOp s) tid = .ok 0 := by
  refine ⟨?_, ?_, ?_, ?_, ?_, ?_⟩ <;>
    simp [closeFileOp, c_close_file, get_run_number, c_get_run_number,
      get_num_telescope, c_get_num_telescope, get_adc_sample, get_num_channel,
      c_get_num_channel, move_to_next_event, isFalsy, fill_next_event,
      c_move_to_next_event, get_azimuth_raw, c_get_azimuth_raw,
      TEL_INDEX_NOT_VALID]

/-- C5 counterexample: with the stream `stE` already at end of stream,
the single-shot fill_next_event raises HessioError instead of reporting
end of stream without an error. -/
theorem fill_next_event_eos_raises :
    (fill_next_event stE).1 = .error (.hessioError "Error while reading next event")
    ∧ (fill_next_event stE).2.cState = some hsE := by
  decide

/-- The generator loop at end of stream: nothing is yielded and the C
state, run configuration included, is untouched. -/
theorem moveLoop_eos (limit : Int) (evt : Nat) (hs : HsData)
    (hp : hs.pendingEvents = []) : moveLoop limit evt (some hs) = ([], some hs) := by
  unfold moveLoop
  split
  · simp [c_move_to_next_event, hp]
  · rfl

/-- The simulated-mode generator loop at end of stream. -/
theorem moveMcLoop_eos (limit : Int) (evt : Nat) (hs : HsData)
    (hp : hs.pendingMcEvents = []) : moveMcLoop limit evt (some hs) = ([], some hs) := by
  unfold moveMcLoop
  split
  · simp [c_move_to_next_mc_event, hp]
  · rfl

/-- C5 amended: once the C advance has reported -1 (no pending event),
every further advance again returns -1 and leaves the state, run
configuration included, unchanged; the move_to_next_event generator
yields nothing and finishes without raising; but the single-shot
fill_next_event raises HessioError at end of stream (its documented
behaviour for a failed read) while still leaving the run configuration
unchanged. -/
theorem eos_generator_graceful_fill_raises (s : PyState) (hs : HsData) (limit : Int)
    (hc : s.cState = some hs) (hp : hs.pendingEvents = [])
    (ho : isFalsy s.openedFilename = false) :
    c_move_to_next_event s.cState = (some hs, -1, -1)
    ∧ move_to_next_event s limit = .ok ([], some hs)
    ∧ (fill_next_event s).1 = .error (.hessioError "Error while reading next event")
    ∧ (fill_next_event s).2.cState = some hs := by
  have hcm : c_move_to_next_event s.cState = (some hs, -1, -1) := by
    rw [hc]; simp [c_move_to_next_event, hp]
  refine ⟨hcm, ?_, ?_, ?_⟩
  · unfold move_to_next_event
    rw [ho, hc]
    simp [moveLoop_eos limit 0 hs hp]
  · unfold fill_next_event
    rw [hcm]
    simp
  · unfold fill_next_event
    rw [hcm]
    simp

/-- C5 amended witness: concrete end-of-stream state `stE`. -/
theorem eos_generator_graceful_fill_raises_witness :
    c_move_to_next_event stE.cState = (some hsE, -1, -1)
    ∧ move_to_next_event stE 0 = .ok ([], some hsE)
    ∧ (fill_next_event stE).1 = .error (.hessioError "Error while reading next event")
    ∧ (fill_next_event stE).2.cState = some hsE :=
  eos_generator_graceful_fill_raises stE hsE 0 rfl rfl (by decide)

/-- C2 counterexample: telescope 47 of `stA` has exactly one gain
channel; requesting ADC sample data for the out-of-range channel index
1 (as the tests do, by indexing the returned array) produces an
ordinary IndexError, not HessioChannelIndexError, and get_adc_known for
channel 1 returns the plausible value 0 instead of raising. -/
theorem adc_channel_overflow_not_channel_error :
    get_num_channel stA 47 = .ok 1
    ∧ get_adc_sample_channel stA 47 1 = .error .indexError
    ∧ isChannelIndexError (get_adc_sample_channel stA 47 1) = false
    ∧ get_adc_known stA 47 1 0 = .ok 0 := by
  decide

theorem get_num_channel_err_not_chan (s : PyState) (tid : Int) (e : PyErr)
    (h : get_num_channel s tid = .error e) : isChanErr e = false := by
  unfold get_num_channel at h
  dsimp only at h
  split at h
  · cases h
  · split at h <;> (simp only [Except.error.injEq] at h; subst h; rfl)

theorem get_num_pixels_err_not_chan (s : PyState) (tid : Int) (e : PyErr)
    (h : get_num_pixels s tid = .error e) : isChanErr e = false := by
  unfold get_num_pixels at h
  dsimp only at h
  split at h
  · cases h
  · split at h <;> (simp only [Except.error.injEq] at h; subst h; rfl)

theorem get_event_num_samples_err_not_chan (s : PyState) (tid : Int) (e : PyErr)
    (h : get_event_num_samples s tid = .error e) : isChanErr e = false := by
  unfold get_event_num_samples at h
  dsimp only at h
  split at h
  · cases h
  · split at h <;> (simp only [Except.error.injEq] at h; subst h; rfl)

theorem adcFill_err_not_chan (c : CState) (tid : Int) (buf : List (List Nat)) :
    ∀ (l : List Nat) (e : PyErr), adcFill c tid buf l = .error e → isChanErr e = false := by
  intro l
  induction l with
  | nil => intro e h; cases h
  | cons ch rest ih =>
    intro e h
    unfold adcFill at h
    dsimp only at h
    split at h
    · rcases hr : adcFill c tid buf rest with e2 | tl <;> rw [hr] at h
      · dsimp only at h
        simp only [Except.error.injEq] at h
        subst h
        exact ih e2 hr
      · cases h
    · split at h <;> (simp only [Except.error.injEq] at h; subst h; rfl)

/-- C2 amended: the Python layer defines HessioChannelIndexError but
never raises it: get_adc_sample takes no channel argument and never
produces that exception; selecting an out-of-range channel from the
returned array is an ordinary IndexError; and get_adc_known returns the
raw C value (0 for any out-of-range index) without raising. -/
theorem channel_index_error_never_raised (s : PyState) (tid : Int) (ch : Nat)
    (chan pix : Int) :
    isChannelIndexError (get_adc_sample s tid) = false
    ∧ isChannelIndexError (get_adc_sample_channel s tid ch) = false
    ∧ get_adc_known s tid chan pix = .ok (c_get_adc_known s.cState tid chan pix) := by
  have hmain : isChannelIndexError (get_adc_sample s tid) = false := by
    unfold get_adc_sample
    rcases h1 : get_num_channel s tid with e1 | nchan
    · dsimp only
      exact get_num_channel_err_not_chan s tid e1 h1
    · rcases h2 : get_num_pixels s tid with e2 | npix
      · dsimp only
        exact get_num_pixels_err_not_chan s tid e2 h2
      · rcases h3 : get_event_num_samples s tid with e3 | ns
        · dsimp only
          exact get_event_num_samples_err_not_chan s tid e3 h3
        · dsimp only
          split
          · rfl
          · rcases h4 : adcFill s.cState tid
              (List.replicate npix.toNat (List.replicate ns.toNat 0))
              (List.range nchan.toNat) with e4 | d
            · have he4 := adcFill_err_not_chan s.cState tid
                (List.replicate npix.toNat (List.replicate ns.toNat 0))
                (List.range nchan.toNat) e4 h4
              cases e4 <;> first | rfl | exact he4
            · rfl
  refine ⟨hmain, ?_, rfl⟩
  unfold get_adc_sample_channel
  rcases h5 : get_adc_sample s tid with e5 | d
  · rw [h5] at hmain
    dsimp only
    exact hmain
  · rw [h5] at hmain
    dsimp only
    rcases h6 : d.get? ch with _ | m <;> rfl

/-! Lemmas for the ADC sample accessor (C6, C7). -/

theorem event_num_samples_ok_inv (s : PyState) (tid : Int) (ns : Int)
    (h : get_event_num_samples s tid = .ok ns) :
    ∃ hs tc td, s.cState = some hs ∧ telAt hs tid = some tc
      ∧ telDataAt hs tid = some td ∧ ns = (td.numSamples : Int) := by
  rcases hcs : s.cState with _ | hs
  · exfalso
    unfold get_event_num_samples c_get_event_num_samples at h
    rw [hcs] at h
    simp [TEL_INDEX_NOT_VALID] at h
  · rcases hta : telAt hs tid with _ | tc
    · exfalso
      unfold get_event_num_samples c_get_event_num_samples at h
      rw [hcs] at h
      dsimp only at h
      rw [hta] at h
      simp [TEL_INDEX_NOT_VALID] at h
    · rcases htd : telDataAt hs tid with _ | td
      · exfalso
        unfold get_event_num_samples c_get_event_num_samples at h
        rw [hcs] at h
        dsimp only at h
        rw [hta] at h
        dsimp only at h
        rw [htd] at h
        simp [TEL_INDEX_NOT_VALID] at h
      · refine ⟨hs, tc, td, rfl, hta, htd, ?_⟩
        unfold get_event_num_samples c_get_event_num_samples at h
        rw [hcs] at h
        dsimp only at h
        rw [hta] at h
        dsimp only at h
        rw [htd] at h
        simp [ge_iff_le, Int.natCast_nonneg] at h
        omega

theorem get_num_channel_valid (s : PyState) (hs : HsData) (tc : TelConfig) (tid : Int)
    (hcs : s.cState = some hs) (hta : telAt hs tid = some tc) :
    get_num_channel s tid = .ok (tc.numGains : Int) := by
  unfold get_num_channel c_get_num_channel
  rw [hcs]
  dsimp only
  rw [hta]
  simp [ge_iff_le, Int.natCast_nonneg]

theorem get_num_pixels_valid (s : PyState) (hs : HsData) (tc : TelConfig) (tid : Int)
    (hcs : s.cState = some hs) (hta : telAt hs tid = some tc) :
    get_num_pixels s tid = .ok (tc.numPixels : Int) := by
  unfold get_num_pixels c_get_num_pixels
  rw [hcs]
  dsimp only
  rw [hta]
  simp [ge_iff_le, Int.natCast_nonneg]

theorem adcFill_ok_of_data (hs : HsData) (tid : Int) (tc : TelConfig) (td : TelData)
    (buf : List (List Nat)) (hta : telAt hs tid = some tc)
    (htd : telDataAt hs tid = some td) :
    ∀ l, adcFill (some hs) tid buf l =
      .ok (l.map fun ch => overlayMat ((td.adc.get? ch).getD []) buf) := by
  intro l
  induction l with
  | nil => rfl
  | cons ch rest ih =>
    have hcg : c_get_adc_sample (some hs) tid ch buf =
        (0, overlayMat ((td.adc.get? ch).getD []) buf) := by
      simp [c_get_adc_sample, hta, htd]
    unfold adcFill
    rw [hcg]
    dsimp only
    rw [if_pos rfl, ih]
    rfl

theorem overlayRow_length (a b : List Nat) : (overlayRow a b).length = b.length := by
  induction b generalizing a with
  | nil => cases a <;> rfl
  | cons x bs ih => cases a <;> simp [overlayRow, ih]

theorem overlayMat_length (a b : List (List Nat)) : (overlayMat a b).length = b.length := by
  induction b generalizing a with
  | nil => cases a <;> rfl
  | cons x bs ih => cases a <;> simp [overlayMat, ih]

theorem overlayMat_mem_length (k : Nat) :
    ∀ (b a : List (List Nat)), (∀ r ∈ b, r.length = k) →
      ∀ r ∈ overlayMat a b, r.length = k := by
  intro b
  induction b with
  | nil => intro a hb r hr; cases a <;> simp [overlayMat] at hr
  | cons x bs ih =>
    intro a hb r hr
    cases a with
    | nil =>
      simp only [overlayMat, List.mem_cons] at hr
      rcases hr with rfl | hr
      · exact hb _ (List.mem_cons_self _ _)
      · exact ih [] (fun r2 h2 => hb r2 (List.mem_cons_of_mem _ h2)) r hr
    | cons v vs =>
      simp only [overlayMat, List.mem_cons] at hr
      rcases hr with rfl | hr
      · rw [overlayRow_length]
        exact hb x (List.mem_cons_self x bs)
      · exact ih vs (fun r2 h2 => hb r2 (List.mem_cons_of_mem x h2)) r hr

/-- C6: for a telescope valid in the run configuration whose declared
sample count in the current event is zero, get_adc_sample returns the
explicitly empty zero-length array and does not raise. -/
theorem zero_samples_empty_adc (s : PyState) (tid : Int)
    (hns : get_event_num_samples s tid = .ok 0) :
    get_adc_sample s tid = .ok [] := by
  obtain ⟨hs, tc, td, hcs, hta, htd, _⟩ := event_num_samples_ok_inv s tid 0 hns
  unfold get_adc_sample
  rw [get_num_channel_valid s hs tc tid hcs hta]
  dsimp only
  rw [get_num_pixels_valid s hs tc tid hcs hta]
  dsimp only
  rw [hns]
  dsimp only
  simp

/-- C6 witness: at the concrete state `stS`, telescope 47 declares zero
samples and get_adc_sample returns the empty array. -/
theorem zero_samples_empty_adc_witness : get_adc_sample stS 47 = .ok [] :=
  zero_samples_empty_adc stS 47 (by decide)

/-- C7: for a telescope valid in the run configuration with sample data
in the current event (get_event_num_samples positive), get_adc_sample
succeeds and returns an array with one entry per gain channel, each of
shape pixel count (as reported by get_num_pixels) by sample count (as
reported by get_event_num_samples). -/
theorem positive_samples_adc_shape (s : PyState) (tid : Int) (ns : Int)
    (hns : get_event_num_samples s tid = .ok ns) (h0 : 0 < ns) :
    ∃ nc np d, get_num_channel s tid = .ok nc ∧ get_num_pixels s tid = .ok np
      ∧ get_adc_sample s tid = .ok d
      ∧ d.length = nc.toNat
      ∧ ∀ m ∈ d, m.length = np.toNat ∧ ∀ r ∈ m, r.length = ns.toNat := by
  obtain ⟨hs, tc, td, hcs, hta, htd, hnseq⟩ := event_num_samples_ok_inv s tid ns hns
  have hchan := get_num_channel_valid s hs tc tid hcs hta
  have hpix := get_num_pixels_valid s hs tc tid hcs hta
  refine ⟨(tc.numGains : Int), (tc.numPixels : Int),
    (List.range ((tc.numGains : Int)).toNat).map
      (fun ch => overlayMat ((td.adc.get? ch).getD [])
        (List.replicate ((tc.numPixels : Int)).toNat (List.replicate ns.toNat 0))),
    hchan, hpix, ?_, ?_, ?_⟩
  · unfold get_adc_sample
    rw [hchan]
    dsimp only
    rw [hpix]
    dsimp only
    rw [hns]
    dsimp only
    rw [if_neg (by omega), hcs,
      adcFill_ok_of_data hs tid tc td _ hta htd (List.range ((tc.numGains : Int)).toNat)]
  · simp
  · intro m hm
    simp only [List.mem_map] at hm
    obtain ⟨ch, _, rfl⟩ := hm
    have hb : ∀ r ∈ List.replicate ((tc.numPixels : Int)).toNat (List.replicate ns.toNat 0),
        r.length = ns.toNat := by
      intro r2 h2
      rw [List.eq_of_mem_replicate h2]
      simp
    constructor
    · rw [overlayMat_length]
      simp
    · exact overlayMat_mem_length ns.toNat
        (List.replicate ((tc.numPixels : Int)).toNat (List.replicate ns.toNat 0))
        ((td.adc.get? ch).getD []) hb

/-- C7 witness: telescope 47 of `stA` has two samples in the current
event; the returned array has the declared shape. -/
theorem positive_samples_adc_shape_witness :
    ∃ nc np d, get_num_channel stA 47 = .ok nc ∧ get_num_pixels stA 47 = .ok np
      ∧ get_adc_sample stA 47 = .ok d
      ∧ d.length = nc.toNat
      ∧ ∀ m ∈ d, m.length = np.toNat ∧ ∀ r ∈ m, r.length = (2 : Int).toNat :=
  positive_samples_adc_shape stA 47 2 (by decide) (by decide)

/-! Lemmas for the generator loops (C8). -/

theorem moveLoop_none (limit : Int) (evt : Nat) : moveLoop limit evt none = ([], none) := by
  unfold moveLoop
  split <;> rfl

theorem moveMcLoop_none (limit : Int) (evt : Nat) : moveMcLoop limit evt none = ([], none) := by
  unfold moveMcLoop
  split <;> rfl

theorem moveLoop_length_le (limit : Int) (hl : 0 < limit) :
    ∀ (l : List EventData) (hs : HsData) (evt : Nat), hs.pendingEvents = l →
      (moveLoop limit evt (some hs)).1.length ≤ limit.toNat - evt := by
  intro l
  induction l with
  | nil =>
    intro hs evt hp
    rw [moveLoop_eos limit evt hs hp]
    simp
  | cons e rest ih =>
    intro hs evt hp
    have hcm : c_move_to_next_event (some hs) =
        (some { hs with current := e, pendingEvents := rest }, hs.runNumber, e.eventId) := by
      simp [c_move_to_next_event, hp]
    unfold moveLoop
    split
    · rename_i hcond
      have hevt : (evt : Int) < limit := by rcases hcond with h | h <;> omega
      rw [hcm]
      dsimp only
      by_cases h1 : hs.runNumber = -1
      · rw [if_pos h1]
        simp
      · rw [if_neg h1]
        by_cases h2 : hs.runNumber < 0
        · rw [dif_pos h2]
          simp only [List.length_cons, List.length_nil]
          omega
        · rw [dif_neg h2]
          dsimp only
          have hrec := ih { hs with current := e, pendingEvents := rest } (evt + 1) rfl
          simp only [List.length_cons]
          omega
    · simp

theorem moveMcLoop_length_le (limit : Int) (hl : 0 < limit) :
    ∀ (l : List EventData) (hs : HsData) (evt : Nat), hs.pendingMcEvents = l →
      (moveMcLoop limit evt (some hs)).1.length ≤ limit.toNat - evt := by
  intro l
  induction l with
  | nil =>
    intro hs evt hp
    rw [moveMcLoop_eos limit evt hs hp]
    simp
  | cons e rest ih =>
    intro hs evt hp
    have hcm : c_move_to_next_mc_event (some hs) =
        (some { hs with current := e, pendingMcEvents := rest }, hs.runNumber, e.eventId) := by
      simp [c_move_to_next_mc_event, hp]
    unfold moveMcLoop
    split
    · rename_i hcond
      have hevt : (evt : Int) < limit := by rcases hcond with h | h <;> omega
      rw [hcm]
      dsimp only
      by_cases h1 : hs.runNumber = -1
      · rw [if_pos h1]
        simp
      · rw [if_neg h1]
        by_cases h2 : hs.runNumber < 0
        · rw [dif_pos h2]
          simp only [List.length_cons, List.length_nil]
          omega
        · rw [dif_neg h2]
          dsimp only
          have hrec := ih { hs with current := e, pendingMcEvents := rest } (evt + 1) rfl
          simp only [List.length_cons]
          omega
    · simp

theorem moveLoop_drain :
    ∀ (l : List EventData) (hs : HsData) (evt : Nat), hs.pendingEvents = l →
      0 ≤ hs.runNumber →
      ∃ cf, moveLoop 0 evt (some hs) = (l.map EventData.eventId, cf) := by
  intro l
  induction l with
  | nil =>
    intro hs evt hp _
    exact ⟨some hs, by rw [moveLoop_eos 0 evt hs hp]; rfl⟩
  | cons e rest ih =>
    intro hs evt hp hrn
    have hcm : c_move_to_next_event (some hs) =
        (some { hs with current := e, pendingEvents := rest }, hs.runNumber, e.eventId) := by
      simp [c_move_to_next_event, hp]
    obtain ⟨cf, hcf⟩ := ih { hs with current := e, pendingEvents := rest } (evt + 1) rfl hrn
    refine ⟨cf, ?_⟩
    unfold moveLoop
    rw [if_pos (Or.inl rfl)]
    rw [hcm]
    dsimp only
    rw [if_neg (by omega), dif_neg (by omega)]
    simp [hcf]

theorem moveMcLoop_drain :
    ∀ (l : List EventData) (hs : HsData) (evt : Nat), hs.pendingMcEvents = l →
      0 ≤ hs.runNumber →
      ∃ cf, moveMcLoop 0 evt (some hs) = (l.map EventData.eventId, cf) := by
  intro l
  induction l with
  | nil =>
    intro hs evt hp _
    exact ⟨some hs, by rw [moveMcLoop_eos 0 evt hs hp]; rfl⟩
  | cons e rest ih =>
    intro hs evt hp hrn
    have hcm : c_move_to_next_mc_event (some hs) =
        (some { hs with current := e, pendingMcEvents := rest }, hs.runNumber, e.eventId) := by
      simp [c_move_to_next_mc_event, hp]
    obtain ⟨cf, hcf⟩ := ih { hs with current := e, pendingMcEvents := rest } (evt + 1) rfl hrn
    refine ⟨cf, ?_⟩
    unfold moveMcLoop
    rw [if_pos (Or.inl rfl)]
    rw [hcm]
    dsimp only
    rw [if_neg (by omega), dif_neg (by omega)]
    simp [hcf]

/-- C8: with a positive limit N both generators yield at most N event
ids whatever the stream holds; with the default limit 0, on an open
stream with a well-formed (non-negative) run number, they yield every
pending event id until end of stream. -/
theorem generator_limit_semantics :
    (∀ (s : PyState) (limit : Int) (l : List Int) (cf : CState), 0 < limit →
      move_to_next_event s limit = .ok (l, cf) → l.length ≤ limit.toNat)
    ∧ (∀ (s : PyState) (limit : Int) (l : List Int) (cf : CState), 0 < limit →
      move_to_next_mc_event s limit = .ok (l, cf) → l.length ≤ limit.toNat)
    ∧ (∀ (s : PyState) (hs : HsData), isFalsy s.openedFilename = false →
      s.cState = some hs → 0 ≤ hs.runNumber →
      ∃ cf, move_to_next_event s 0 = .ok (hs.pendingEvents.map EventData.eventId, cf))
    ∧ (∀ (s : PyState) (hs : HsData), isFalsy s.openedFilename = false →
      s.cState = some hs → 0 ≤ hs.runNumber →
      ∃ cf, move_to_next_mc_event s 0 =
        .ok (hs.pendingMcEvents.map EventData.eventId, cf)) := by
  refine ⟨?_, ?_, ?_, ?_⟩
  · intro s limit l cf hl hok
    unfold move_to_next_event at hok
    split at hok
    · cases hok
    · simp only [Except.ok.injEq] at hok
      rcases hcs : s.cState with _ | hs
      · rw [hcs, moveLoop_none limit 0] at hok
        simp only [Prod.mk.injEq] at hok
        rw [← hok.1]
        simp
      · rw [hcs] at hok
        have hb := moveLoop_length_le limit hl hs.pendingEvents hs 0 rfl
        rw [hok] at hb
        dsimp only at hb
        omega
  · intro s limit l cf hl hok
    unfold move_to_next_mc_event at hok
    split at hok
    · cases hok
    · simp only [Except.ok.injEq] at hok
      rcases hcs : s.cState with _ | hs
      · rw [hcs, moveMcLoop_none limit 0] at hok
        simp only [Prod.mk.injEq] at hok
        rw [← hok.1]
        simp
      · rw [hcs] at hok
        have hb := moveMcLoop_length_le limit hl hs.pendingMcEvents hs 0 rfl
        rw [hok] at hb
        dsimp only at hb
        omega
  · intro s hs ho hcs hrn
    obtain ⟨cf, hcf⟩ := moveLoop_drain hs.pendingEvents hs 0 rfl hrn
    refine ⟨cf, ?_⟩
    unfold move_to_next_event
    rw [if_neg (by simp [ho]), hcs, hcf]
  · intro s hs ho hcs hrn
    obtain ⟨cf, hcf⟩ := moveMcLoop_drain hs.pendingMcEvents hs 0 rfl hrn
    refine ⟨cf, ?_⟩
    unfold move_to_next_mc_event
    rw [if_neg (by simp [ho]), hcs, hcf]

/-- C8 witness: on the concrete open state `stA` with limit 0 the
generator yields exactly the two pending event ids 408 and 409. -/
theorem generator_limit_semantics_witness :
    ∃ cf, move_to_next_event stA 0 = .ok ([408, 409], cf) :=
  generator_limit_semantics.2.2.1 stA hsA (by decide) rfl (by decide)

end Pyhessio
